import Mathlib

/-!
Verification of the ROI-reporting engine in `src/main.py` (COPY-TRADING-ROI).

The Python source is shallowly embedded: numeric values (Python floats) are
idealised as rationals `ℚ`, fallible operations return `Except String`,
JSON dictionaries become structures whose optional fields are `Option`s,
and the single-shot `main` run becomes a pure function from a configuration
and an environment (the outcomes of the external HTTP calls) to a structured
run result.

The development has two layers.  `main_run` and the functions beneath it
embed the statements of the source as written — the intended semantics of
the `main` body.  `invoke_shipped` models what invoking the shipped file
actually does: line 187 of `src/main.py` is tab-indented inside a
space-indented block, CPython's tokenizer rejects the module with
TabError at load, and so none of the embedded statements ever executes
(verified against CPython 3.11: compiling the file raises TabError,
line 187).  The tokenizer's indentation-consistency rule is embedded
below (`consistentIndent`) and `invoke_shipped` is gated on it.
-/

/-! ## Daily-gain rows and the two aggregation functions
(`sum_simple_pct`, `sum_compound_pct`, `src/main.py` lines 110-131) -/

/-- A daily-gain row as the aggregation functions see it.  Each of the two
JSON fields is `none` when the key is absent; `some none` when the key is
present but its value does not parse as a float (`float(...)` raises);
`some (some q)` when it parses to the number `q`. -/
structure Row where
  value : Option (Option ℚ)
  gain : Option (Option ℚ)
  deriving DecidableEq

/-- Python `float(x)` on an already-classified field value: succeeds exactly
when the value parses as a number. -/
def float_of : Option ℚ → Except String ℚ
  | some q => .ok q
  | none => .error "could not convert to float"

/-- The argument passed to `float(...)` in both aggregation loops:
`r.get("value") if "value" in r else r.get("gain", 0.0)`.  A missing
`gain` key defaults to `0.0`, which parses. -/
def row_raw (r : Row) : Option ℚ :=
  match r.value with
  | some v => v
  | none =>
    match r.gain with
    | some g => g
    | none => some 0

/-- The percentage a row contributes: `float(...)` under `try/except`,
with `0.0` substituted when the conversion raises. -/
def rowPct (r : Row) : ℚ :=
  match float_of (row_raw r) with
  | .ok v => v
  | .error _ => 0

/-- Simple percentage sum (`sum_simple_pct`, lines 110-119):
`s = 0.0; for r in rows: s += v`. -/
def sum_simple_pct (rows : List Row) : ℚ :=
  rows.foldl (fun s r => s + rowPct r) 0

/-- Compounded percentage sum (`sum_compound_pct`, lines 122-131):
`acc = 1.0; for r in rows: acc *= (1.0 + v/100.0); return (acc-1.0)*100.0`. -/
def sum_compound_pct (rows : List Row) : ℚ :=
  (rows.foldl (fun acc r => acc * (1 + rowPct r / 100)) 1 - 1) * 100

/-- A row is malformed when its `value` field is missing or unparsable and,
if `value` is missing, the `gain` fallback is itself missing or unparsable. -/
def malformedRow (r : Row) : Prop :=
  r.value = some none ∨ (r.value = none ∧ (r.gain = some none ∨ r.gain = none))

theorem sum_simple_eq_map_sum (rows : List Row) :
    sum_simple_pct rows = (rows.map rowPct).sum := by
  have h : ∀ init : ℚ, rows.foldl (fun s r => s + rowPct r) init = init + (rows.map rowPct).sum := by
    induction rows with
    | nil => intro init; simp
    | cons r rest ih => intro init; simp [List.foldl_cons, ih, add_assoc]
  simpa using h 0

theorem sum_compound_eq_map_prod (rows : List Row) :
    sum_compound_pct rows = ((rows.map (fun r => 1 + rowPct r / 100)).prod - 1) * 100 := by
  have h : ∀ init : ℚ, rows.foldl (fun acc r => acc * (1 + rowPct r / 100)) init
      = init * (rows.map (fun r => 1 + rowPct r / 100)).prod := by
    induction rows with
    | nil => intro init; simp
    | cons r rest ih => intro init; simp [List.foldl_cons, ih, mul_assoc]
  unfold sum_compound_pct
  rw [h 1, one_mul]

theorem rowPct_of_malformed (r : Row) (h : malformedRow r) : rowPct r = 0 := by
  rcases h with h | ⟨h1, h2 | h2⟩ <;> simp [rowPct, row_raw, float_of, *]

/-! ## Percentage formatting (`fmt_pct`, lines 134-138) -/

/-- Formatting of a percentage: `f"{float(x):+.2f}%"` with `N/A` when the
argument does not convert to a float (in particular when it is `None`).
The two-decimal rendering of the idealised rational models the float
rounding of the Python format spec. -/
def fmt_digits (q : ℚ) : String :=
  let a : ℕ := (⌊q * 100 + 1 / 2⌋ : ℤ).natAbs
  toString (a / 100) ++ "."
    ++ (if a % 100 < 10 then "0" ++ toString (a % 100) else toString (a % 100))
    ++ "%"

def fmt_pct (x : Option ℚ) : String :=
  match x with
  | none => "N/A"
  | some q => (if q < 0 then "-" else "+") ++ fmt_digits q

theorem fmt_pct_some_ne_na (q : ℚ) : fmt_pct (some q) ≠ "N/A" := by
  intro h
  have h' : (if q < 0 then "-" else "+") ++ fmt_digits q = "N/A" := h
  rcases lt_or_ge q 0 with hq | hq
  · rw [if_pos hq] at h'
    have := congrArg String.data h'
    simp at this
  · rw [if_neg (not_lt.mpr hq)] at h'
    have := congrArg String.data h'
    simp at this

theorem fmt_pct_none : fmt_pct none = "N/A" := rfl

/-- C2: the compound aggregate of samples with percentages `p_i` equals
`(Π (1 + p_i/100) - 1) * 100`; the aggregate of the empty sequence is `0`,
and the aggregate of two samples of one percent each is `2.01` percent. -/
theorem compound_aggregation_law (rows : List Row) :
    sum_compound_pct rows = ((rows.map (fun r => 1 + rowPct r / 100)).prod - 1) * 100
    ∧ sum_compound_pct [] = 0
    ∧ sum_compound_pct [⟨some (some 1), none⟩, ⟨some (some 1), none⟩] = 201 / 100 := by
  refine ⟨sum_compound_eq_map_prod rows, by norm_num [sum_compound_pct, List.foldl], ?_⟩
  norm_num [sum_compound_pct, List.foldl, rowPct, row_raw, float_of]

/-- C9: both aggregation functions are total functions of the row list
(the embedded `try/except` absorbs every conversion failure), and a row
whose `value` field (or `gain` fallback) is missing or unparsable
contributes zero percent to either aggregate. -/
theorem aggregation_total_malformed_zero (rows : List Row) (r : Row) (h : malformedRow r) :
    rowPct r = 0
    ∧ sum_simple_pct (r :: rows) = sum_simple_pct rows
    ∧ sum_compound_pct (r :: rows) = sum_compound_pct rows
    ∧ sum_simple_pct rows = (rows.map rowPct).sum
    ∧ sum_compound_pct rows = ((rows.map (fun s => 1 + rowPct s / 100)).prod - 1) * 100 := by
  have hr := rowPct_of_malformed r h
  refine ⟨hr, ?_, ?_, sum_simple_eq_map_sum rows, sum_compound_eq_map_prod rows⟩
  · rw [sum_simple_eq_map_sum, sum_simple_eq_map_sum, List.map_cons, List.sum_cons, hr, zero_add]
  · rw [sum_compound_eq_map_prod, sum_compound_eq_map_prod, List.map_cons, List.prod_cons, hr]
    norm_num

theorem aggregation_total_malformed_zero_wit :
    rowPct ⟨some none, some (some 7)⟩ = 0
    ∧ sum_simple_pct [⟨some none, some (some 7)⟩, ⟨some (some 3), none⟩]
        = sum_simple_pct [⟨some (some 3), none⟩] :=
  let h := aggregation_total_malformed_zero [⟨some (some 3), none⟩] ⟨some none, some (some 7)⟩
    (Or.inl rfl)
  ⟨h.1, h.2.1⟩

/-! ## Strategy A snapshot-delta ROI -/

/-- Modelled from the spec: the snapshot-delta ROI of Strategy A
(`roi_pct`) is described in the spec but absent from `src/main.py`, which
implements only the compounding Strategy B.  Per the spec,
`roi_pct(current, base) = (current - base) / base * 100` when `base > 0`,
and absent otherwise. -/
def roi_pct (current base : ℚ) : Option ℚ :=
  if 0 < base then some ((current - base) / base * 100) else none

/-- C3: the snapshot-delta ROI equals `(current - base) / base * 100`
whenever `base > 0`, is absent for every `base ≤ 0`, and in particular
`roi_pct base base = 0` for every `base > 0`. -/
theorem roi_pct_spec (current base : ℚ) :
    (0 < base → roi_pct current base = some ((current - base) / base * 100))
    ∧ (base ≤ 0 → roi_pct current base = none)
    ∧ (0 < base → roi_pct base base = some 0) := by
  refine ⟨fun h => by simp [roi_pct, h], fun h => by simp [roi_pct, not_lt.mpr h], fun h => ?_⟩
  simp [roi_pct, h, div_mul_eq_mul_div, sub_self]

theorem roi_pct_spec_wit :
    roi_pct 110 100 = some 10 ∧ roi_pct 5 0 = none ∧ roi_pct 1000 1000 = some 0 := by
  refine ⟨((roi_pct_spec 110 100).1 (by norm_num)).trans ?_,
    (roi_pct_spec 5 0).2.1 (by norm_num), (roi_pct_spec 1000 1000).2.2 (by norm_num)⟩
  norm_num

/-! ## Account selection (`pick_account`, lines 82-92) -/

/-- An account record from `get-my-accounts.json`, restricted to the fields
`main` uses.  `id` carries `str(a.get("id"))`, the stringified id; `gain`
follows the field-classification convention of `Row`. -/
structure Account where
  id : String
  name : Option String
  broker : Option String
  gain : Option (Option ℚ)
  deriving DecidableEq

/-- Account selection (`pick_account`): when `MYFXBOOK_ACCOUNT_ID` is a
non-empty string, the first account whose stringified id equals it is
returned; otherwise (or when nothing matches) the first account of the
list; an empty list raises. -/
def pick_account (pref : String) (accounts : List Account) : Except String (String × Account) :=
  match (if pref ≠ "" then accounts.find? (fun a => a.id == pref) else none) with
  | some a => .ok (a.id, a)
  | none =>
    match accounts with
    | [] => .error "Khong co account nao trong Myfxbook."
    | a :: _ => .ok (a.id, a)

/-- C10: `pick_account` fails exactly on the empty list; a configured
preferred id that occurs in the list selects a matching account; otherwise
the head of the list is returned. -/
theorem pick_account_spec (pref : String) (accounts : List Account) :
    ((pick_account pref accounts).isOk = false ↔ accounts = [])
    ∧ (pref ≠ "" → ∀ a : Account, a ∈ accounts → a.id = pref →
        ∃ b : Account, b ∈ accounts ∧ b.id = pref
          ∧ pick_account pref accounts = .ok (b.id, b))
    ∧ ((pref = "" ∨ ∀ a ∈ accounts, a.id ≠ pref) → ∀ a rest, accounts = a :: rest →
        pick_account pref accounts = .ok (a.id, a)) := by
  refine ⟨?_, ?_, ?_⟩
  · rcases hf : (if pref ≠ "" then accounts.find? (fun a => a.id == pref) else none) with _ | b
    · unfold pick_account
      rw [hf]
      cases accounts with
      | nil => simp [Except.isOk, Except.toBool]
      | cons a rest => simp [Except.isOk, Except.toBool]
    · have hb : accounts.find? (fun a => a.id == pref) = some b := by
        by_cases hp : pref ≠ ""
        · rwa [if_pos hp] at hf
        · rw [if_neg hp] at hf; exact absurd hf (by simp)
      have hne : accounts ≠ [] := List.ne_nil_of_mem (List.mem_of_find?_eq_some hb)
      unfold pick_account
      rw [hf]
      simp [Except.isOk, Except.toBool, hne]
  · intro hp a ha hid
    have hs : (accounts.find? (fun x => x.id == pref)).isSome := by
      rw [List.find?_isSome]
      exact ⟨a, ha, by simp [hid]⟩
    rcases ho : accounts.find? (fun x => x.id == pref) with _ | b
    · rw [ho] at hs; simp at hs
    · have hbid : b.id = pref := by
        have h3 := List.find?_some (p := fun x : Account => x.id == pref) ho
        exact eq_of_beq h3
      refine ⟨b, List.mem_of_find?_eq_some ho, hbid, ?_⟩
      unfold pick_account
      rw [if_pos hp, ho]
  · intro hnone a rest hacc
    have hf : (if pref ≠ "" then accounts.find? (fun x => x.id == pref) else none) = none := by
      rcases hnone with h | h
      · simp [h]
      · by_cases hp : pref ≠ ""
        · rw [if_pos hp]
          rw [List.find?_eq_none]
          intro x hx
          simpa using h x hx
        · simp [hp]
    unfold pick_account
    rw [hf, hacc]

theorem pick_account_spec_wit :
    (∃ b : Account, b ∈ [(⟨"1", none, none, none⟩ : Account), ⟨"7", none, none, none⟩]
      ∧ b.id = "7"
      ∧ pick_account "7" [(⟨"1", none, none, none⟩ : Account), ⟨"7", none, none, none⟩]
          = .ok (b.id, b))
    ∧ pick_account "" [(⟨"1", none, none, none⟩ : Account), ⟨"7", none, none, none⟩]
        = .ok ("1", ⟨"1", none, none, none⟩)
    ∧ ((pick_account "7" ([] : List Account)).isOk = false ↔ ([] : List Account) = []) := by
  refine ⟨(pick_account_spec "7" _).2.1 (by decide) ⟨"7", none, none, none⟩ (by simp) rfl,
    ?_, (pick_account_spec "7" []).1⟩
  exact (pick_account_spec "" _).2.2 (Or.inl rfl) ⟨"1", none, none, none⟩ _ rfl

/-! ## Period windows (`ranges_today_week_month`, lines 141-151)

Calendar dates are embedded as `(year, month, day)` triples together with
their civil day number (days since 1970-01-01, Howard Hinnant's civil
calendar algorithm), which is how `datetime.date` arithmetic (`weekday`,
`timedelta` subtraction, `replace(day=1)`) is given meaning. -/

/-- A calendar date, as year, month (1-12) and day of month (1-based). -/
structure Date where
  y : Int
  m : Int
  d : Int
  deriving DecidableEq

/-- Days since 1970-01-01 of a civil date (Hinnant's days_from_civil). -/
def days_from_civil (dt : Date) : Int :=
  let yy : Int := if dt.m ≤ 2 then dt.y - 1 else dt.y
  let era : Int := (if 0 ≤ yy then yy else yy - 399) / 400
  let yoe : Int := yy - era * 400
  let mp : Int := (dt.m + 9) % 12
  let doy : Int := (153 * mp + 2) / 5 + dt.d - 1
  let doe : Int := yoe * 365 + yoe / 4 - yoe / 100 + doy
  era * 146097 + doe - 719468

/-- Python `date.weekday()` on the day number: Monday = 0 ... Sunday = 6
(1970-01-01, day number 0, was a Thursday, weekday 3). -/
def pyWeekday (n : Int) : Int :=
  (n + 3) % 7

/-- The three fetch ranges, as pairs of day numbers (start, end).  The code
formats these as `YYYY-MM-DD` strings; the embedding keeps the dates
themselves. -/
structure Ranges where
  day : Int × Int
  week : Int × Int
  month : Int × Int
  deriving DecidableEq

/-- The range computation (`ranges_today_week_month`):
`day = (today, today)`, `week = (today - today.weekday(), today)` and
`month = (today.replace(day=1), today)`. -/
def ranges_today_week_month (today : Date) : Ranges :=
  let n := days_from_civil today
  { day := (n, n)
  , week := (n - pyWeekday n, n)
  , month := (days_from_civil ⟨today.y, today.m, 1⟩, n) }

theorem days_from_civil_day_affine (y m d : Int) :
    days_from_civil ⟨y, m, d⟩ = days_from_civil ⟨y, m, 1⟩ + (d - 1) := by
  unfold days_from_civil
  dsimp only
  by_cases h2 : m ≤ 2 <;> simp only [h2, if_true, if_false, reduceIte] <;> ring

/-- C6: for every current date (any day of month `d ≥ 1`), the `day` range
starts and ends on the current date; the `week` range ends on the current
date and starts on the Monday (`pyWeekday = 0`) on or before it, at most
six days earlier; the `month` range ends on the current date and starts on
the first calendar day of the current month, on or before the current
date. -/
theorem ranges_spec (today : Date) (hd : 1 ≤ today.d) :
    (ranges_today_week_month today).day
        = (days_from_civil today, days_from_civil today)
    ∧ (ranges_today_week_month today).week.2 = days_from_civil today
    ∧ pyWeekday (ranges_today_week_month today).week.1 = 0
    ∧ (ranges_today_week_month today).week.1 ≤ days_from_civil today
    ∧ days_from_civil today < (ranges_today_week_month today).week.1 + 7
    ∧ (ranges_today_week_month today).month.2 = days_from_civil today
    ∧ (ranges_today_week_month today).month.1
        = days_from_civil ⟨today.y, today.m, 1⟩
    ∧ (ranges_today_week_month today).month.1 ≤ days_from_civil today := by
  refine ⟨rfl, rfl, ?_, ?_, ?_, rfl, rfl, ?_⟩
  · show pyWeekday (days_from_civil today - pyWeekday (days_from_civil today)) = 0
    unfold pyWeekday
    omega
  · show days_from_civil today - pyWeekday (days_from_civil today) ≤ days_from_civil today
    unfold pyWeekday
    omega
  · show days_from_civil today
        < days_from_civil today - pyWeekday (days_from_civil today) + 7
    unfold pyWeekday
    omega
  · show days_from_civil ⟨today.y, today.m, 1⟩ ≤ days_from_civil today
    have h := days_from_civil_day_affine today.y today.m today.d
    have ht : today = ⟨today.y, today.m, today.d⟩ := rfl
    rw [← ht] at h
    omega

theorem ranges_spec_wit :
    pyWeekday (ranges_today_week_month ⟨2025, 10, 12⟩).week.1 = 0
    ∧ (ranges_today_week_month ⟨2025, 10, 12⟩).week.1
        ≤ days_from_civil ⟨2025, 10, 12⟩
    ∧ (ranges_today_week_month ⟨2025, 10, 12⟩).month.1
        = days_from_civil ⟨2025, 10, 1⟩
    ∧ (ranges_today_week_month ⟨2025, 10, 12⟩).month.1
        ≤ days_from_civil ⟨2025, 10, 12⟩ :=
  let h := ranges_spec ⟨2025, 10, 12⟩ (by norm_num)
  ⟨h.2.2.1, h.2.2.2.1, h.2.2.2.2.2.2.1, h.2.2.2.2.2.2.2⟩

/-! ## External call results, the notifier, and the `main` run
(lines 55-79, 154-164, 168-234) -/

/-- Response of `login.json` as `myfx_login` inspects it. -/
structure LoginResp where
  error : Bool
  session : Option String
  deriving DecidableEq

/-- Response of `get-my-accounts.json`. -/
structure AccountsResp where
  error : Bool
  accounts : Option (List Account)
  deriving DecidableEq

/-- Response of `get-daily-gain.json`: some API versions return the list
under `dailyGain`, others under `data`. -/
structure DailyGainResp where
  error : Bool
  dailyGain : Option (List Row)
  data : Option (List Row)
  deriving DecidableEq

/-- The environment-derived configuration (empty string = unset). -/
structure Config where
  email : String
  password : String
  prefAccId : String
  botToken : String
  chatId : String
  deriving DecidableEq

/-- The report header constant (the TITLE_PREFIX string of the source). -/
def TITLE_TEXT : String := "💵 TRADE GOODS"

/-- Login (`myfx_login`): missing credentials raise before any HTTP call;
otherwise the call's outcome is validated. -/
def myfx_login (cfg : Config) (api : Except String LoginResp) : Except String String :=
  if cfg.email = "" ∨ cfg.password = "" then
    .error "Thieu MYFXBOOK_EMAIL / MYFXBOOK_PASSWORD"
  else
    match api with
    | .error e => .error e
    | .ok j =>
      match j.error, j.session with
      | false, some s => .ok s
      | _, _ => .error "Login failed"

/-- Account fetch (`myfx_get_accounts`). -/
def myfx_get_accounts (api : Except String AccountsResp) : Except String (List Account) :=
  match api with
  | .error e => .error e
  | .ok j =>
    match j.error, j.accounts with
    | false, some l => .ok l
    | _, _ => .error "get-my-accounts failed"

/-- Daily-gain fetch (`myfx_daily_gain`): accepts `dailyGain` then `data`. -/
def myfx_daily_gain (api : Except String DailyGainResp) : Except String (List Row) :=
  match api with
  | .error e => .error e
  | .ok j =>
    if j.error = false then
      match j.dailyGain with
      | some l => .ok l
      | none =>
        match j.data with
        | some l => .ok l
        | none => .error "get-daily-gain failed"
    else .error "get-daily-gain failed"

/-- Outcome of one `telegram_send` call: whether an HTTP send was
attempted (skipped when credentials are missing) and whether it was
delivered (a failed send is logged, not raised). -/
structure SendResult where
  attempted : Bool
  delivered : Bool
  deriving DecidableEq

/-- The notifier (`telegram_send`, lines 154-164): missing credentials
skip the send; a failing `post` is absorbed by the `try/except`.  The
return type carries no `Except`: the embedded function cannot raise. -/
def telegram_send (cfg : Config) (post : String → Except String Unit) (text : String) :
    SendResult :=
  if cfg.botToken = "" ∨ cfg.chatId = "" then ⟨false, false⟩
  else
    match post text with
    | .ok _ => ⟨true, true⟩
    | .error _ => ⟨true, false⟩

/-- The three loop keys of the `rg` dict (the `all` figure is handled
separately, straight from the account record). -/
inductive Period
  | day
  | week
  | month
  deriving DecidableEq

def rangeOf (rg : Ranges) : Period → Int × Int
  | .day => rg.day
  | .week => rg.week
  | .month => rg.month

/-- One entry of the `results` dict: the two aggregates and the row count. -/
structure Stats where
  simple : ℚ
  compound : ℚ
  n : ℕ
  deriving DecidableEq

/-- Body of the fetch loop for one key: a successful fetch stores the
aggregates, a failed fetch stores `None`. -/
def fetchStats (fetch : Period → Except String (List Row)) (k : Period) : Option Stats :=
  match fetch k with
  | .ok rows => some ⟨sum_simple_pct rows, sum_compound_pct rows, rows.length⟩
  | .error _ => none

/-- The fetch loop (`for key, (start, end) in rg.items()`), parameterised
by the iteration order so that order-independence can be stated. -/
def run_loop (order : List Period) (fetch : Period → Except String (List Row)) :
    List (Period × Option Stats) :=
  order.map (fun k => (k, fetchStats fetch k))

/-- `results.get(key)`: first binding for the key, `None` when absent. -/
def dict_get : List (Period × Option Stats) → Period → Option Stats
  | [], _ => none
  | (k2, v) :: rest, k => if k2 = k then v else dict_get rest k

/-- The `pick` helper of `main` (lines 208-212): `N/A` for a falsy entry,
otherwise the compound figure, formatted. -/
def pick (v : Option Stats) : String :=
  match v with
  | none => "N/A"
  | some s => fmt_pct (some s.compound)

/-- `float(acc_meta.get("gain"))` under `try/except` (lines 179-183). -/
def parse_float_field : Option (Option ℚ) → Option ℚ
  | some (some q) => some q
  | _ => none

/-- The message lines of the report (lines 202-217), in source order. -/
def build_lines (accId : String) (meta : Account) (timeStr : String)
    (res : List (Period × Option Stats)) (roiAll : Option ℚ) : List String :=
  [ TITLE_TEXT
  , "📊 ROI (Myfxbook)"
  , "• Account: " ++ meta.name.getD "N/A" ++ " | ID: " ++ accId
      ++ " | Broker: " ++ meta.broker.getD "N/A"
  , "• Time: " ++ timeStr
  , ""
  , "Day:   " ++ pick (dict_get res .day)
  , "Week:  " ++ pick (dict_get res .week)
  , "Month: " ++ pick (dict_get res .month)
  , "All:   " ++ (match roiAll with
      | some q => fmt_pct (some q)
      | none => "N/A") ]

/-- Outcomes of the external world for one invocation: each field is the
result the corresponding HTTP call would produce. -/
structure Env where
  loginApi : Except String LoginResp
  accountsApi : String → Except String AccountsResp
  dailyGainApi : String → String → Int × Int → Except String DailyGainResp
  post : String → Except String Unit
  today : Date
  timeStr : String

/-- Observable result of one `main` run: the process exit code (`0` for a
normal return, `1` for the fatal `except` path), the composed report (or
`none` when the run aborted before composing it), and every text handed
to `telegram_send` together with that call's outcome. -/
structure MainResult where
  exitCode : ℕ
  report : Option (List String)
  notified : List (String × SendResult)

/-- Text of the fatal-path notification (line 228). -/
def errText (e : String) : String := TITLE_TEXT ++ "\n❌ ERROR: " ++ e

/-- The fatal `except` branch of `main` (lines 224-231): best-effort
notification, then a non-zero exit (the `sys.exit(1)` line: `sys` is not
imported, so the line raises `NameError`, which still terminates the
interpreter with exit status 1). -/
def fatal (cfg : Config) (env : Env) (e : String) : MainResult :=
  { exitCode := 1
  , report := none
  , notified := [(errText e, telegram_send cfg env.post (errText e))] }

/-- The per-period fetch of `main`: the daily-gain call for the range of
period `k` computed from the current date. -/
def mainFetch (env : Env) (session accId : String) (k : Period) :
    Except String (List Row) :=
  myfx_daily_gain (env.dailyGainApi session accId
    (rangeOf (ranges_today_week_month env.today) k))

/-- The `main` run (lines 168-234); named `main_run` because `main` is
reserved in Lean. -/
def main_run (cfg : Config) (env : Env) : MainResult :=
  match myfx_login cfg env.loginApi with
  | .error e => fatal cfg env e
  | .ok session =>
    match myfx_get_accounts (env.accountsApi session) with
    | .error e => fatal cfg env e
    | .ok accounts =>
      match pick_account cfg.prefAccId accounts with
      | .error e => fatal cfg env e
      | .ok (accId, meta) =>
        let roiAll := parse_float_field meta.gain
        let res := run_loop [Period.day, Period.week, Period.month]
          (mainFetch env session accId)
        let lines := build_lines accId meta env.timeStr res roiAll
        let msg := String.intercalate "\n" lines
        { exitCode := 0
        , report := some lines
        , notified := [(msg, telegram_send cfg env.post msg)] }

theorem dict_get_run_loop (order : List Period)
    (f : Period → Except String (List Row)) (k : Period) (h : k ∈ order) :
    dict_get (run_loop order f) k = fetchStats f k := by
  induction order with
  | nil => cases h
  | cons a rest ih =>
    by_cases hak : a = k
    · subst hak
      simp [run_loop, dict_get]
    · have hk : k ∈ rest := by
        cases h with
        | head => exact absurd rfl hak
        | tail _ h2 => exact h2
      simp only [run_loop, List.map_cons, dict_get, if_neg hak]
      exact ih hk

theorem mem_three (k : Period) : k ∈ [Period.day, Period.week, Period.month] := by
  cases k <;> simp

/-- Intended semantics of report composition (dead code, lines 202-217):
for any fetch order containing every key and any subset of failures, the
composed lines would list the periods in the fixed order day, week,
month, all. -/
theorem report_ordering (order : List Period) (ho : ∀ k : Period, k ∈ order)
    (f : Period → Except String (List Row)) (accId : String) (meta : Account)
    (timeStr : String) (roiAll : Option ℚ) :
    build_lines accId meta timeStr (run_loop order f) roiAll
      = [ TITLE_TEXT
        , "📊 ROI (Myfxbook)"
        , "• Account: " ++ meta.name.getD "N/A" ++ " | ID: " ++ accId
            ++ " | Broker: " ++ meta.broker.getD "N/A"
        , "• Time: " ++ timeStr
        , ""
        , "Day:   " ++ pick (fetchStats f .day)
        , "Week:  " ++ pick (fetchStats f .week)
        , "Month: " ++ pick (fetchStats f .month)
        , "All:   " ++ (match roiAll with
            | some q => fmt_pct (some q)
            | none => "N/A") ] := by
  unfold build_lines
  rw [dict_get_run_loop order f Period.day (ho _),
    dict_get_run_loop order f Period.week (ho _),
    dict_get_run_loop order f Period.month (ho _)]

theorem report_ordering_wit :
    build_lines "1" ⟨"1", none, none, none⟩ "t"
        (run_loop [Period.month, Period.week, Period.day] (fun _ => .error "down")) none
      = [ TITLE_TEXT
        , "📊 ROI (Myfxbook)"
        , "• Account: N/A | ID: 1 | Broker: N/A"
        , "• Time: t"
        , ""
        , "Day:   N/A"
        , "Week:  N/A"
        , "Month: N/A"
        , "All:   N/A" ] := by
  rw [report_ordering [Period.month, Period.week, Period.day]
    (fun k => by cases k <;> simp) (fun _ => .error "down") "1" ⟨"1", none, none, none⟩ "t" none]
  rfl

/-- Intended semantics of the except branch (dead code, lines 224-231):
were the module able to load, a failed login (in particular missing
provider credentials) or account fetch would take the fatal path: no
report, the error text handed to the notifier, a non-zero exit. -/
theorem fatal_path (cfg : Config) (env : Env) (e : String)
    (h : myfx_login cfg env.loginApi = .error e
      ∨ ∃ session, myfx_login cfg env.loginApi = .ok session
          ∧ myfx_get_accounts (env.accountsApi session) = .error e) :
    (main_run cfg env).exitCode = 1
    ∧ (main_run cfg env).report = none
    ∧ (main_run cfg env).notified
        = [(errText e, telegram_send cfg env.post (errText e))]
    ∧ ((cfg.email = "" ∨ cfg.password = "") →
        myfx_login cfg env.loginApi
          = .error "Thieu MYFXBOOK_EMAIL / MYFXBOOK_PASSWORD") := by
  have hm : main_run cfg env = fatal cfg env e := by
    rcases h with h | ⟨session, hs, ha⟩
    · simp only [main_run, h]
    · simp only [main_run, hs, ha]
  refine ⟨by rw [hm]; rfl, by rw [hm]; rfl, by rw [hm]; rfl, fun hc => ?_⟩
  unfold myfx_login
  rw [if_pos hc]

/-- Concrete account fixture for witnesses. -/
def acct1 : Account := ⟨"1", some "n", some "b", some (some 5)⟩

/-- Configuration with all credentials set and no preferred account id. -/
def cfgOk : Config := ⟨"e", "p", "", "t", "c"⟩

/-- Configuration with provider credentials missing. -/
def cfgNoCred : Config := ⟨"", "", "", "t", "c"⟩

/-- Environment fixture: login and account fetch succeed; a daily-gain
range succeeds with one 1-percent row exactly when it is a single-day
range (so on 2025-10-12, a Sunday, `day` succeeds while `week` and
`month` fail). -/
def envMix : Env :=
  { loginApi := .ok ⟨false, some "s"⟩
  , accountsApi := fun _ => .ok ⟨false, some [acct1]⟩
  , dailyGainApi := fun _ _ pr =>
      if pr.1 = pr.2 then .ok ⟨false, some [⟨some (some 1), none⟩], none⟩
      else .error "range down"
  , post := fun _ => .ok ()
  , today := ⟨2025, 10, 12⟩
  , timeStr := "t" }

theorem fatal_path_wit :
    (main_run cfgNoCred envMix).exitCode = 1
    ∧ (main_run cfgNoCred envMix).report = none :=
  let h := fatal_path cfgNoCred envMix "Thieu MYFXBOOK_EMAIL / MYFXBOOK_PASSWORD"
    (Or.inl rfl)
  ⟨h.1, h.2.1⟩

/-- Intended semantics of the fetch loop and report (dead code, lines
189-217): were the module able to load, a failed daily-gain fetch for one
period would not abort the run (exit code 0, a report composed), the
failed period would render as the `N/A` marker, and every period whose
fetch succeeded would render its computed compound figure, never `N/A`. -/
theorem period_failure_isolation (cfg : Config) (env : Env) (session accId : String)
    (accounts : List Account) (meta : Account) (k : Period) (e : String)
    (hl : myfx_login cfg env.loginApi = .ok session)
    (ha : myfx_get_accounts (env.accountsApi session) = .ok accounts)
    (hp : pick_account cfg.prefAccId accounts = .ok (accId, meta))
    (hk : mainFetch env session accId k = .error e) :
    (main_run cfg env).exitCode = 0
    ∧ (main_run cfg env).report
        = some (build_lines accId meta env.timeStr
            (run_loop [Period.day, Period.week, Period.month]
              (mainFetch env session accId))
            (parse_float_field meta.gain))
    ∧ pick (dict_get (run_loop [Period.day, Period.week, Period.month]
          (mainFetch env session accId)) k) = "N/A"
    ∧ ∀ k2 rows, mainFetch env session accId k2 = .ok rows →
        pick (dict_get (run_loop [Period.day, Period.week, Period.month]
            (mainFetch env session accId)) k2)
          = fmt_pct (some (sum_compound_pct rows))
        ∧ fmt_pct (some (sum_compound_pct rows)) ≠ "N/A" := by
  have hm : main_run cfg env
      = { exitCode := 0
        , report := some (build_lines accId meta env.timeStr
            (run_loop [Period.day, Period.week, Period.month]
              (mainFetch env session accId))
            (parse_float_field meta.gain))
        , notified :=
            [(String.intercalate "\n"
                (build_lines accId meta env.timeStr
                  (run_loop [Period.day, Period.week, Period.month]
                    (mainFetch env session accId))
                  (parse_float_field meta.gain)),
              telegram_send cfg env.post
                (String.intercalate "\n"
                  (build_lines accId meta env.timeStr
                    (run_loop [Period.day, Period.week, Period.month]
                      (mainFetch env session accId))
                    (parse_float_field meta.gain))))] } := by
    simp only [main_run, hl, ha, hp]
  refine ⟨by rw [hm], by rw [hm], ?_, ?_⟩
  · rw [dict_get_run_loop _ _ k (mem_three k)]
    unfold fetchStats
    rw [hk]
    rfl
  · intro k2 rows h2
    rw [dict_get_run_loop _ _ k2 (mem_three k2)]
    unfold fetchStats
    rw [h2]
    exact ⟨rfl, fmt_pct_some_ne_na _⟩

theorem period_failure_isolation_wit :
    (main_run cfgOk envMix).exitCode = 0
    ∧ pick (dict_get (run_loop [Period.day, Period.week, Period.month]
        (mainFetch envMix "s" "1")) Period.week) = "N/A"
    ∧ pick (dict_get (run_loop [Period.day, Period.week, Period.month]
        (mainFetch envMix "s" "1")) Period.day)
      = fmt_pct (some (sum_compound_pct [⟨some (some 1), none⟩])) :=
  let h := period_failure_isolation cfgOk envMix "s" "1" [acct1] acct1
    Period.week "range down" rfl rfl rfl rfl
  ⟨h.1, h.2.2.1, (h.2.2.2 Period.day [⟨some (some 1), none⟩] rfl).1⟩

/-- The `All:` line of a composed report (index 8 of the message lines). -/
def allLine (r : MainResult) : Option String :=
  r.report.map (fun ls => ls.getD 8 "")

/-- Intended semantics of the `All:` line (dead code, lines 179-183 and
217): were the module able to load, the `all` figure would be the account
record's cumulative-gain field passed through unchanged — `N/A` exactly
when missing or unparsable — independent of the daily-gain fetches. -/
theorem all_passthrough (cfg : Config) (env env2 : Env) (session accId : String)
    (accounts : List Account) (meta : Account)
    (hl : myfx_login cfg env.loginApi = .ok session)
    (ha : myfx_get_accounts (env.accountsApi session) = .ok accounts)
    (hp : pick_account cfg.prefAccId accounts = .ok (accId, meta))
    (h2l : env2.loginApi = env.loginApi)
    (h2a : env2.accountsApi = env.accountsApi) :
    allLine (main_run cfg env)
      = some ("All:   " ++ (match parse_float_field meta.gain with
          | some q => fmt_pct (some q)
          | none => "N/A"))
    ∧ ((meta.gain = none ∨ meta.gain = some none) →
        allLine (main_run cfg env) = some "All:   N/A")
    ∧ allLine (main_run cfg env) = allLine (main_run cfg env2) := by
  have key : ∀ env3 : Env, myfx_login cfg env3.loginApi = .ok session →
      myfx_get_accounts (env3.accountsApi session) = .ok accounts →
      allLine (main_run cfg env3)
        = some ("All:   " ++ (match parse_float_field meta.gain with
            | some q => fmt_pct (some q)
            | none => "N/A")) := by
    intro env3 hl3 ha3
    have hm : main_run cfg env3
        = { exitCode := 0
          , report := some (build_lines accId meta env3.timeStr
              (run_loop [Period.day, Period.week, Period.month]
                (mainFetch env3 session accId))
              (parse_float_field meta.gain))
          , notified :=
              [(String.intercalate "\n"
                  (build_lines accId meta env3.timeStr
                    (run_loop [Period.day, Period.week, Period.month]
                      (mainFetch env3 session accId))
                    (parse_float_field meta.gain)),
                telegram_send cfg env3.post
                  (String.intercalate "\n"
                    (build_lines accId meta env3.timeStr
                      (run_loop [Period.day, Period.week, Period.month]
                        (mainFetch env3 session accId))
                      (parse_float_field meta.gain))))] } := by
      simp only [main_run, hl3, ha3, hp]
    rw [hm]
    rfl
  have h1 := key env hl ha
  have h2 := key env2 (by rw [h2l]; exact hl) (by rw [h2a]; exact ha)
  refine ⟨h1, fun hg => ?_, h1.trans h2.symm⟩
  rw [h1]
  rcases hg with hg | hg <;> rw [hg] <;> rfl

/-- Environment identical to `envMix` except that every daily-gain fetch
fails; used to witness independence of the `All:` line. -/
def envAllDown : Env :=
  { envMix with dailyGainApi := fun _ _ _ => .error "gone" }

theorem all_passthrough_wit :
    allLine (main_run cfgOk envMix)
      = some ("All:   " ++ fmt_pct (some 5))
    ∧ allLine (main_run cfgOk envMix) = allLine (main_run cfgOk envAllDown) :=
  let h := all_passthrough cfgOk envMix envAllDown "s" "1" [acct1] acct1
    rfl rfl rfl rfl rfl
  ⟨h.1, h.2.2⟩

/-- Intended semantics of the notifier (lines 154-164) within the dead
`main` body: missing credentials skip the send; a failing transport is
recorded, not raised (the embedded `telegram_send` returns an ordinary
`SendResult`, never an error); and whatever the notifier does, a run that
reached the report would exit 0 with a composed report. -/
theorem notifier_best_effort (cfg : Config) (post2 : String → Except String Unit)
    (text : String) :
    ((cfg.botToken = "" ∨ cfg.chatId = "") →
      telegram_send cfg post2 text = ⟨false, false⟩)
    ∧ (∀ e, cfg.botToken ≠ "" → cfg.chatId ≠ "" → post2 text = .error e →
        telegram_send cfg post2 text = ⟨true, false⟩)
    ∧ (∀ env : Env, ∀ session accounts accId meta,
        myfx_login cfg env.loginApi = .ok session →
        myfx_get_accounts (env.accountsApi session) = .ok accounts →
        pick_account cfg.prefAccId accounts = .ok (accId, meta) →
        (main_run cfg env).exitCode = 0
          ∧ (main_run cfg env).report.isSome = true) := by
  refine ⟨fun h => by unfold telegram_send; rw [if_pos h], ?_, ?_⟩
  · intro e hb hc hpost
    unfold telegram_send
    rw [if_neg (by simp [hb, hc]), hpost]
  · intro env session accounts accId meta hl ha hp
    have hm : (main_run cfg env).report
        = some (build_lines accId meta env.timeStr
            (run_loop [Period.day, Period.week, Period.month]
              (mainFetch env session accId))
            (parse_float_field meta.gain))
        ∧ (main_run cfg env).exitCode = 0 := by
      constructor <;> simp only [main_run, hl, ha, hp]
    exact ⟨hm.2, by rw [hm.1]; rfl⟩

/-- Configuration with notifier credentials missing. -/
def cfgNoTg : Config := ⟨"e", "p", "", "", ""⟩

theorem notifier_best_effort_wit :
    telegram_send cfgNoTg (fun _ => .ok ()) "m" = ⟨false, false⟩
    ∧ telegram_send cfgOk (fun _ => .error "net down") "m" = ⟨true, false⟩
    ∧ (main_run cfgNoTg envMix).exitCode = 0 :=
  ⟨(notifier_best_effort cfgNoTg (fun _ => .ok ()) "m").1 (Or.inl rfl),
    (notifier_best_effort cfgOk (fun _ => .error "net down") "m").2.1 "net down"
      (by decide) (by decide) rfl,
    ((notifier_best_effort cfgNoTg (fun _ => .ok ()) "m").2.2 envMix "s" [acct1] "1" acct1
      rfl rfl rfl).1⟩

/-! ## Module load: the tokenizer's indentation check and the shipped
behaviour

Line 187 of `src/main.py` (the `results` assignment inside the
space-indented `try` body of `main`) is indented with two tabs; every
other line of the file is space-indented (line 187 is the only line
containing a tab).  CPython's tokenizer measures each indentation prefix
under tab stop 8 and under tab stop 1 and requires the comparison with
the enclosing indentation to agree under both; when the two comparisons
disagree it raises TabError and the module never loads. -/

/-- One character of a line's indentation prefix. -/
inductive IndentChar
  | space
  | tab
  deriving DecidableEq

/-- Column width of an indentation prefix under a given tab stop,
accumulated left to right: a space advances one column, a tab advances to
the next multiple of the tab stop (CPython uses tab stop 8 for the
primary measure and tab stop 1 for the alternate one). -/
def indentCol (tabStop : ℕ) : ℕ → List IndentChar → ℕ
  | c, [] => c
  | c, .space :: rest => indentCol tabStop (c + 1) rest
  | c, .tab :: rest => indentCol tabStop ((c / tabStop + 1) * tabStop) rest

/-- CPython's tokenizer accepts a line's indentation against the
enclosing block's only when the order of the two widths is the same
under tab stop 8 and under tab stop 1; otherwise TabError. -/
def consistentIndent (prev cur : List IndentChar) : Bool :=
  compare (indentCol 8 0 cur) (indentCol 8 0 prev)
    == compare (indentCol 1 0 cur) (indentCol 1 0 prev)

/-- Indentation of `src/main.py` line 186 (`rg = ...`): eight spaces. -/
def line186Indent : List IndentChar := List.replicate 8 .space

/-- Indentation of `src/main.py` line 187 (the `results` assignment):
two tabs. -/
def line187Indent : List IndentChar := [.tab, .tab]

theorem line187_tab_error :
    consistentIndent line186Indent line187Indent = false := by decide

/-- Observable behaviour of invoking `python3 src/main.py`: the module
body executes (and `main()` runs) only if tokenization accepts every
line; line 187 is the single tab-indented line, so loading is gated on
its consistency with the enclosing block.  When the tokenizer rejects it,
the interpreter dies with TabError before any statement of the module
executes: exit status 1, nothing handed to the notifier, no report. -/
def invoke_shipped (cfg : Config) (env : Env) : MainResult :=
  if consistentIndent line186Indent line187Indent then main_run cfg env
  else { exitCode := 1, report := none, notified := [] }

/-- C1: refuted by the shipped artifact.  Every invocation dies with
TabError at load (line 187), so every run is aborted with no report —
no period is ever fetched, computed or reported — even in an environment
(below: week fails, day succeeds) where the dead loop and report code
would have isolated the failure and returned normally. -/
theorem period_failure_isolation_shipped :
    consistentIndent line186Indent line187Indent = false
    ∧ (invoke_shipped cfgOk envMix).exitCode = 1
    ∧ (invoke_shipped cfgOk envMix).report = none
    ∧ (main_run cfgOk envMix).exitCode = 0
    ∧ (main_run cfgOk envMix).report.isSome = true := by
  refine ⟨line187_tab_error, ?_, ?_, rfl, rfl⟩ <;>
    simp [invoke_shipped, line187_tab_error]

/-- C4: refuted by the shipped artifact.  On the failing input (provider
credentials missing) the interpreter dies with TabError at load: the
process does exit non-zero, but nothing is ever handed to the notifier —
while the dead except branch would have notified the error text. -/
theorem fatal_path_shipped :
    consistentIndent line186Indent line187Indent = false
    ∧ (invoke_shipped cfgNoCred envMix).exitCode = 1
    ∧ (invoke_shipped cfgNoCred envMix).notified = []
    ∧ (fatal cfgNoCred envMix "Thieu MYFXBOOK_EMAIL / MYFXBOOK_PASSWORD").notified
        = [(errText "Thieu MYFXBOOK_EMAIL / MYFXBOOK_PASSWORD",
            telegram_send cfgNoCred envMix.post
              (errText "Thieu MYFXBOOK_EMAIL / MYFXBOOK_PASSWORD"))] := by
  refine ⟨line187_tab_error, ?_, ?_, rfl⟩ <;>
    simp [invoke_shipped, line187_tab_error]

/-- C5: refuted by the shipped artifact.  No invocation ever composes a
report, so there is no `All:` line at all — even though the account
record of the environment below carries a parsable cumulative-gain field
that the dead report code would have passed through. -/
theorem all_passthrough_shipped :
    consistentIndent line186Indent line187Indent = false
    ∧ (invoke_shipped cfgOk envMix).report = none
    ∧ allLine (invoke_shipped cfgOk envMix) = none
    ∧ allLine (main_run cfgOk envMix) = some ("All:   " ++ fmt_pct (some 5)) := by
  refine ⟨line187_tab_error, ?_, ?_, rfl⟩ <;>
    simp [invoke_shipped, line187_tab_error, allLine]

/-- C7: refuted by the shipped artifact.  The claim quantifies over the
composed report of every run, but every run dies with TabError at load
and composes no report; the fixed day, week, month, all ordering is a
property only of the dead report code. -/
theorem report_ordering_shipped :
    consistentIndent line186Indent line187Indent = false
    ∧ (invoke_shipped cfgOk envMix).report = none
    ∧ (main_run cfgOk envMix).report
        = some (build_lines "1" acct1 "t"
            (run_loop [Period.day, Period.week, Period.month]
              (mainFetch envMix "s" "1"))
            (some 5)) := by
  refine ⟨line187_tab_error, ?_, rfl⟩
  simp [invoke_shipped, line187_tab_error]

/-- C8: refuted by the shipped artifact.  With notifier credentials
missing the run does not continue normally — no run continues at all,
because the module dies with TabError at load — even though the dead
`telegram_send` function itself would have skipped the send on missing
credentials and absorbed a transport failure without raising. -/
theorem notifier_best_effort_shipped :
    consistentIndent line186Indent line187Indent = false
    ∧ (invoke_shipped cfgNoTg envMix).exitCode = 1
    ∧ (invoke_shipped cfgNoTg envMix).report = none
    ∧ telegram_send cfgNoTg (fun _ => .ok ()) "m" = ⟨false, false⟩
    ∧ telegram_send cfgOk (fun _ => .error "net down") "m" = ⟨true, false⟩ := by
  refine ⟨line187_tab_error, ?_, ?_, rfl, rfl⟩ <;>
    simp [invoke_shipped, line187_tab_error]
